import Mathlib

/-!
Verification of the audio_doa pipeline (two-microphone direction-of-arrival
estimator): shallow embedding of the DOA tracker (`audio_doa_tracker.c`),
the raw-angle conditioner (`audio_doa.c`), and the facade (`audio_doa_app.c`).

Angles (C `float`) are modelled as exact rationals `ℚ`; the few places where
the source's float rounding could matter (the `2.0f/3.0f` ratio threshold)
are checked value-by-value in comments at the definition.  FreeRTOS ticks
(`TickType_t`, a 32-bit unsigned counter) are modelled as `ℕ` with explicit
wraparound subtraction.  `pdMS_TO_TICKS` is modelled as the identity
(a 1000 Hz tick rate); no settled claim depends on the conversion factor.
-/

namespace AudioDoa

/- Batteries marks the `Rat` arithmetic operations `@[irreducible]`, which
blocks `decide`-style evaluation of the embedded functions on concrete
rationals; the kernel itself reduces them fine.  Restore reducibility for
this development. -/
attribute [local semireducible] Rat.add Rat.mul Rat.inv Rat.sub

/-- `esp_err_t` surface codes used by this component. -/
inductive EspErr where
  | ok
  | invalidArg
  | noMem
  | fail
deriving DecidableEq, Repr

/-- `pdMS_TO_TICKS`: milliseconds to ticks, modelled at a 1000 Hz tick rate. -/
def pdMsToTicks (ms : ℕ) : ℕ := ms

/-- Unsigned 32-bit tick subtraction `now - earlier` as the C code computes it
on `TickType_t` (wraparound modulo `2^32`). -/
def tickDiff (now earlier : ℕ) : ℕ :=
  (now % 2 ^ 32 + 2 ^ 32 - earlier % 2 ^ 32) % 2 ^ 32

/-! ## DOA tracker (`audio_doa_tracker.c`)

Constants from the source:
`DOA_TRACKER_BUFFER_SIZE = 6`, `RECENT_WEIGHT_FACTOR = 3.0`,
`REASONABLE_CHANGE_THRESHOLD = 40.0`, `SILENT_ANGLE = 90.0`,
`SILENT_ANGLE_THRESHOLD = 6.0`, `INITIAL_SAMPLES_TO_CHECK = 3`,
`GRADUAL_CHANGE_THRESHOLD = 20.0`, `ANGLE_QUANTIZATION_STEP = 20.0`,
`ANGLE_MIN = 0`, `ANGLE_MAX = 180`, `MAJOR_ANGLE_CHANGE_THRESHOLD = 30.0`,
`CONTINUOUS_90_DURATION_MS = 1000`, `BUFFER_90_RATIO_THRESHOLD = 2.0f/3.0f`. -/

/-- `audio_doa_tracker_ctx_t`: the tracker state.  `write_index` (a C `int`
kept in `[0,6)` by the code) is a `Fin 6`; ticks are `ℕ`. -/
structure TrackerState where
  enabled : Bool
  buffer : Fin 6 → ℚ
  originalBuffer : Fin 6 → ℚ
  validMask : Fin 6 → Bool
  writeIndex : Fin 6
  validCount : ℕ
  isFrontFacingMode : Bool
  isNotFrontFacingDetected : Bool
  initialSamplesCount : ℕ
  lastValidAngle : ℚ
  hasLastValidAngle : Bool
  lastOutputAngle : ℚ
  hasOutputAngle : Bool
  firstNear90Tick : ℕ
  hasNear90Start : Bool
  outputIntervalMs : ℕ
  lastOutputTick : ℕ
  minAngleChangeThreshold : ℚ
deriving DecidableEq, Repr

/-- `is_near_90_degrees`: `|angle - 90| < 6`. -/
def isNear90 (angle : ℚ) : Bool := |angle - 90| < 6

/-- `count_near_90_in_buffer`: valid entries whose original (pre-quantization)
value is near 90. -/
def countNear90 (s : TrackerState) : ℕ :=
  (List.finRange 6).countP fun i => s.validMask i && isNear90 (s.originalBuffer i)

/-- `buffer_mostly_90`.  The source compares against
`(int)(valid_count * (2.0f/3.0f))`.  The float nearest `2/3` is
`11184811/2^24 ≈ 0.6666666865`, and for every `valid_count` in `[0,6]` the
rounded float product truncates to exactly `⌊2·valid_count/3⌋`
(products: 0, 0.66666669, 1.33333337, 2.0, 2.66666675, 3.33333349, 4.0),
so the threshold is modelled as natural-number division `2 * valid_count / 3`. -/
def bufferMostly90 (s : TrackerState) : Bool :=
  if s.validCount = 0 then false
  else countNear90 s ≥ 2 * s.validCount / 3

/-- `reset_90_tracking`. -/
def reset90Tracking (s : TrackerState) : TrackerState :=
  { s with hasNear90Start := false, firstNear90Tick := 0 }

/-- `start_90_tracking` at the current tick. -/
def start90Tracking (s : TrackerState) (now : ℕ) : TrackerState :=
  if s.hasNear90Start then s
  else { s with firstNear90Tick := now, hasNear90Start := true }

/-- `check_continuous_90_duration`: promotes to front-facing mode when the
near-90 timer has run at least `CONTINUOUS_90_DURATION_MS`. -/
def checkContinuous90Duration (s : TrackerState) (now : ℕ) : TrackerState × Bool :=
  if ¬ s.hasNear90Start then (s, false)
  else if tickDiff now s.firstNear90Tick ≥ pdMsToTicks 1000 then
    ({ s with isFrontFacingMode := true }, true)
  else (s, false)

/-- Accumulator of the buffer-trend loop in `check_gradual_change_to_90`. -/
structure GradAcc where
  moving : ℕ
  lastChecked : ℚ
deriving DecidableEq, Repr

/-- One iteration of the trend loop in `check_gradual_change_to_90`.  The C
index is `(write_index - 2 - i + 6) % 6` on `int`, i.e. truncated modulo;
for `write_index = 0, i = 5` this yields `-1` and the source reads
`valid_mask[-1]`, out of bounds (undefined behavior).  That access is
modelled as an unoccupied slot; no settled claim depends on its value. -/
def gradStep (s : TrackerState) (acc : GradAcc) (i : ℕ) : GradAcc :=
  if acc.moving ≥ 3 then acc
  else
    let cIdx : ℤ := Int.tmod ((s.writeIndex : ℤ) - 2 - (i : ℤ) + 6) 6
    if h : 0 ≤ cIdx ∧ cIdx < 6 then
      let idx : Fin 6 := ⟨cIdx.toNat, by omega⟩
      if s.validMask idx then
        let checkedDiff := |s.buffer idx - 90|
        let lastDiff := |acc.lastChecked - 90|
        { moving := if checkedDiff < lastDiff then acc.moving + 1 else acc.moving,
          lastChecked := s.buffer idx }
      else acc
    else acc

/-- `check_gradual_change_to_90`. -/
def checkGradualChangeTo90 (angle : ℚ) (s : TrackerState) : Bool :=
  if ¬ s.hasLastValidAngle ∨ s.validCount < 3 then false
  else if |angle - s.lastValidAngle| ≥ 20 then false
  else if |angle - 90| ≥ |s.lastValidAngle - 90| then false
  else
    let acc := (List.range 6).foldl (gradStep s) ⟨0, s.lastValidAngle⟩
    acc.moving ≥ 3

/-- `quantize_angle`: clamp to `[0,180]`, truncate to a 20-degree bin
(`(int)` truncation equals floor on the clamped non-negative value), clamp
the bin index to 8, return the bin center. -/
def quantizeAngle (angle : ℚ) : ℚ :=
  let a := if angle < 0 then 0 else if angle > 180 then (180 : ℚ) else angle
  let interval : ℤ := ⌊a / 20⌋
  let interval := if interval ≥ 9 then 8 else interval
  (interval : ℚ) * 20 + 20 / 2

/-- `is_angle_valid`: the validity policy.  It both decides acceptance and
mutates the 90-degree tracking state, so it returns the updated state.
The source's `avg_angle` and `has_valid` parameters are unused there and
are omitted here. -/
def isAngleValid (angle : ℚ) (s : TrackerState) (now : ℕ) : TrackerState × Bool :=
  if ¬ isNear90 angle then (reset90Tracking s, true)
  else if s.isFrontFacingMode then (s, true)
  else
    let s := start90Tracking s now
    match checkContinuous90Duration s now with
    | (s, true) => (s, true)
    | (s, false) =>
      if s.validCount < 3 then (s, true)
      else if ¬ s.hasLastValidAngle then (s, bufferMostly90 s)
      else if isNear90 s.lastValidAngle then (s, |angle - s.lastValidAngle| < 20)
      else
        let s := reset90Tracking s
        if checkGradualChangeTo90 angle s then (s, true)
        else if s.isNotFrontFacingDetected then (s, bufferMostly90 s)
        else (s, bufferMostly90 s)

/-- `check_initial_samples`: the one-shot front-facing probe over the first
three valid entries in low-to-high index order. -/
def checkInitialSamples (s : TrackerState) : TrackerState :=
  if s.initialSamplesCount ≥ 3 ∨ s.validCount < 3 then s
  else
    let acc := (List.finRange 6).foldl
      (fun (acc : ℕ × ℕ) i =>
        if acc.2 ≥ 3 then acc
        else if s.validMask i then
          ((if isNear90 (s.originalBuffer i) then acc.1 + 1 else acc.1), acc.2 + 1)
        else acc)
      (0, 0)
    if acc.2 ≥ 3 then
      if acc.1 ≥ 3 then
        { s with isFrontFacingMode := true, initialSamplesCount := 3 }
      else
        { s with isNotFrontFacingDetected := true, initialSamplesCount := 3 }
    else s

/-- `apply_angle_bias`. -/
def applyAngleBias (avgAngle minAngle maxAngle : ℚ) : ℚ :=
  if avgAngle ≥ 110 ∧ avgAngle ≤ 180 then avgAngle * (3 / 10) + maxAngle * (7 / 10)
  else if avgAngle ≥ 0 ∧ avgAngle ≤ 40 then avgAngle * (3 / 10) + minAngle * (7 / 10)
  else avgAngle

/-- Accumulator of the averaging loops (`sum`/`weight`, running min and max). -/
structure AvgAcc where
  wsum : ℚ
  wtot : ℚ
  minA : ℚ
  maxA : ℚ
deriving DecidableEq, Repr

/-- `calculate_first_output_angle`: plain mean of valid quantized entries,
then edge bias. -/
def calculateFirstOutputAngle (s : TrackerState) : ℚ :=
  if s.validCount = 0 then 0
  else
    let acc := (List.finRange 6).foldl
      (fun (acc : AvgAcc) i =>
        if s.validMask i then
          { wsum := acc.wsum + s.buffer i
            wtot := acc.wtot + 1
            minA := if s.buffer i < acc.minA then s.buffer i else acc.minA
            maxA := if s.buffer i > acc.maxA then s.buffer i else acc.maxA }
        else acc)
      ⟨0, 0, 180, 0⟩
    if acc.wtot = 0 then 0
    else applyAngleBias (acc.wsum / acc.wtot) acc.minA acc.maxA

/-- `calculate_average_angle`: mean of valid quantized entries with weight 3
on the newest slot `(write_index - 1 + 6) % 6`, then edge bias. -/
def calculateAverageAngle (s : TrackerState) : ℚ :=
  if s.validCount = 0 then 0
  else
    let latest : Fin 6 := s.writeIndex + 5
    let acc := (List.finRange 6).foldl
      (fun (acc : AvgAcc) i =>
        if s.validMask i then
          let w : ℚ := if i = latest then 3 else 1
          { wsum := acc.wsum + s.buffer i * w
            wtot := acc.wtot + w
            minA := if s.buffer i < acc.minA then s.buffer i else acc.minA
            maxA := if s.buffer i > acc.maxA then s.buffer i else acc.maxA }
        else acc)
      ⟨0, 0, 180, 0⟩
    if acc.wtot = 0 then 0
    else applyAngleBias (acc.wsum / acc.wtot) acc.minA acc.maxA

/-- `should_allow_90_output`: same truncated `2/3` threshold as
`buffer_mostly_90` (see there for the float check), then front-facing mode
or a full continuous-90 interval. -/
def shouldAllow90Output (s : TrackerState) (now : ℕ) : Bool :=
  if countNear90 s < 2 * s.validCount / 3 then false
  else if s.isFrontFacingMode then true
  else if ¬ s.hasNear90Start ∨ tickDiff now s.firstNear90Tick < pdMsToTicks 1000 then false
  else true

/-- `reset_tracker_state`: clears everything except `enabled`, the interval,
the threshold and the callback wiring. -/
def resetTrackerState (s : TrackerState) : TrackerState :=
  { s with
    writeIndex := 0
    validCount := 0
    isFrontFacingMode := false
    isNotFrontFacingDetected := false
    initialSamplesCount := 0
    lastValidAngle := 0
    hasLastValidAngle := false
    lastOutputAngle := 0
    hasOutputAngle := false
    hasNear90Start := false
    firstNear90Tick := 0
    lastOutputTick := 0
    buffer := fun _ => 0
    originalBuffer := fun _ => 0
    validMask := fun _ => false }

/-- `audio_doa_tracker_cfg_t`.  The required result callback is modelled by
its presence flag. -/
structure TrackerCfg where
  hasResultCallback : Bool
  outputIntervalMs : ℕ
  minAngleChangeThreshold : ℚ
deriving DecidableEq, Repr

/-- `audio_doa_tracker_init`: validates the config, then builds the state.
Note the source substitutes `15.0f` whenever the configured
`min_angle_change_threshold` is not positive. -/
def audio_doa_tracker_init (cfg : TrackerCfg) : Except EspErr TrackerState :=
  if ¬ cfg.hasResultCallback then .error .invalidArg
  else
    .ok (resetTrackerState
      { enabled := false
        buffer := fun _ => 0
        originalBuffer := fun _ => 0
        validMask := fun _ => false
        writeIndex := 0
        validCount := 0
        isFrontFacingMode := false
        isNotFrontFacingDetected := false
        initialSamplesCount := 0
        lastValidAngle := 0
        hasLastValidAngle := false
        lastOutputAngle := 0
        hasOutputAngle := false
        firstNear90Tick := 0
        hasNear90Start := false
        outputIntervalMs := if cfg.outputIntervalMs > 0 then cfg.outputIntervalMs else 0
        lastOutputTick := 0
        minAngleChangeThreshold :=
          if cfg.minAngleChangeThreshold > 0 then cfg.minAngleChangeThreshold else 15 })

/-- Emission: update the output fields and fire the result callback. -/
def emitOutput (s : TrackerState) (avg : ℚ) (now : ℕ) : TrackerState × Option ℚ :=
  ({ s with lastOutputAngle := avg, hasOutputAngle := true, lastOutputTick := now }, some avg)

/-- The "Add to buffer" block of `audio_doa_tracker_feed`: store the
quantized and original angles at `write_index`, set the mask bit (bumping
`valid_count` if it was clear), advance `write_index` mod 6, and record the
quantized angle as the last valid one. -/
def insertSample (s : TrackerState) (q angle : ℚ) : TrackerState :=
  { s with
    validCount := if s.validMask s.writeIndex then s.validCount else s.validCount + 1
    buffer := Function.update s.buffer s.writeIndex q
    originalBuffer := Function.update s.originalBuffer s.writeIndex angle
    validMask := Function.update s.validMask s.writeIndex true
    writeIndex := s.writeIndex + 1
    lastValidAngle := q
    hasLastValidAngle := true }

/-- The "Output logic" block of `audio_doa_tracker_feed`: first output once
the buffer is full; subsequent outputs gated by the interval, the
90-degree corroboration, the 40-degree reasonable-change ceiling and the
minimum-change floor. -/
def outputDecision (s : TrackerState) (now : ℕ) : TrackerState × Option ℚ :=
  if ¬ s.hasOutputAngle then
    if s.validCount ≥ 6 then emitOutput s (calculateFirstOutputAngle s) now
    else (s, none)
  else if s.validCount ≥ 6 ∧
      (s.outputIntervalMs = 0 ∨
        tickDiff now s.lastOutputTick ≥ pdMsToTicks s.outputIntervalMs) then
    let avg := calculateAverageAngle s
    let pass90 := if |avg - 90| < 5 then shouldAllow90Output s now else true
    if pass90 then
      if |avg - s.lastOutputAngle| > 40 then (s, none)
      else if s.minAngleChangeThreshold > 0 ∧
          |avg - s.lastOutputAngle| < s.minAngleChangeThreshold then (s, none)
      else emitOutput s avg now
    else (s, none)
  else (s, none)

/-- `audio_doa_tracker_feed` at tick `now`; returns the updated state and the
angle passed to the result callback, if any. -/
def audio_doa_tracker_feed (s : TrackerState) (angle : ℚ) (now : ℕ) :
    TrackerState × Option ℚ :=
  if ¬ s.enabled then (s, none)
  else
    let currentAvg := calculateAverageAngle s
    let hasValidSamples := 0 < s.validCount
    match isAngleValid angle s now with
    | (s1, false) => (s1, none)
    | (s1, true) =>
      let q := quantizeAngle angle
      let s2 :=
        if hasValidSamples ∧ s1.validCount ≥ 6 ∧ |angle - currentAvg| > 30 then
          resetTrackerState s1
        else s1
      let s3 := insertSample s2 q angle
      let s4 := checkInitialSamples s3
      outputDecision s4 now

/-- `audio_doa_tracker_enable`: sets the flag, then resets all tracker state
(the source resets on both enable and disable). -/
def audio_doa_tracker_enable (s : TrackerState) (enable : Bool) : TrackerState :=
  resetTrackerState { s with enabled := enable }

/-- Fold `audio_doa_tracker_feed` over a list of `(angle, tick)` inputs,
collecting the emitted result-callback angles in order. -/
def feedTrace (s : TrackerState) (inputs : List (ℚ × ℕ)) : TrackerState × List ℚ :=
  match inputs with
  | [] => (s, [])
  | (a, t) :: rest =>
    let step := audio_doa_tracker_feed s a t
    let restTrace := feedTrace step.1 rest
    (restTrace.1, step.2.toList ++ restTrace.2)

/-! ## Raw-angle conditioner (`audio_doa.c`) -/

/-- The C index expression `(current_index - i + window_size) % window_size`
of `moving_weighted_average`: on `int` it is non-negative here, so it
coincides with `(c + 7 - i) % 7` on `ℕ`. -/
def mwaIndex (currentIndex i : Fin 7) : Fin 7 :=
  ⟨((currentIndex : ℕ) + 7 - (i : ℕ)) % 7, by omega⟩

/-- `moving_weighted_average`: windowed weighted average over the circular
history, accumulating `data[(current_index - i + N) % N] * weights[i]` and
`weights[i]` for `i ∈ [0,7)`, then dividing. -/
def movingWeightedAverage (data : Fin 7 → ℚ) (weights : Fin 7 → ℚ)
    (currentIndex : Fin 7) : ℚ :=
  let acc := (List.finRange 7).foldl
    (fun (acc : ℚ × ℚ) i =>
      (acc.1 + data (mwaIndex currentIndex i) * weights i, acc.2 + weights i))
    (0, 0)
  acc.1 / acc.2

/-- `generate_gaussian_weights`, parameterized by the platform's `expf` (an
external transcendental routine): raw weights `expf (-(i - c)² / (2σ²))`
with `c = (7-1)/2 = 3`, normalized by their sum. -/
def generateGaussianWeights (expf : ℚ → ℚ) (sigma : ℚ) : Fin 7 → ℚ :=
  let raw : Fin 7 → ℚ := fun i => expf (-(((i : ℕ) : ℚ) - 3) ^ 2 / (2 * sigma ^ 2))
  let total := ∑ i : Fin 7, raw i
  fun i => raw i / total

/-- One conditioner step from `audio_doa_thread` (lines 476-481): store the
kernel's raw angle at `doa_history[doa_history_index]`, compute the moving
weighted average at the *pre-increment* index, then advance the index mod 7.
Returns the new history, the new index, and the filtered value handed to
calibration. -/
def conditionerStep (hist : Fin 7 → ℚ) (idx : Fin 7) (weights : Fin 7 → ℚ)
    (angle : ℚ) : (Fin 7 → ℚ) × Fin 7 × ℚ :=
  let hist1 := Function.update hist idx angle
  let filtered := movingWeightedAverage hist1 weights idx
  (hist1, idx + 1, filtered)

/-- The spec's index expression `(idx − i) mod 7` with mathematical
(non-negative) modulo. -/
def specIndex (idx i : Fin 7) : Fin 7 :=
  ⟨((((idx : ℕ) : ℤ) - ((i : ℕ) : ℤ)) % 7).toNat, by omega⟩

/-- The spec's §4.B filtered-value formula at a given index:
`Σᵢ history[(idx − i) mod 7] · w[i]` for `i ∈ [0,7)`, divided by `Σᵢ w[i]`.
Defined from the spec's words, to be compared with the source's
`movingWeightedAverage`. -/
def specFilteredAt (hist : Fin 7 → ℚ) (w : Fin 7 → ℚ) (idx : Fin 7) : ℚ :=
  (∑ i : Fin 7, hist (specIndex idx i) * w i) / ∑ i : Fin 7, w i

/-- `doa_angle_calibration`: clamp to `[0,180]`, amplify the offset from 90
by `1 + (|offset|/90)·0.25`, clamp again.  (The source's two branches on the
offset sign compute the same expression.) -/
def doa_angle_calibration (rawAngle : ℚ) : ℚ :=
  let a := if rawAngle < 0 then 0 else if rawAngle > 180 then (180 : ℚ) else rawAngle
  let offsetFromCenter := a - 90
  let absOffset := |offsetFromCenter|
  let correctionFactor := 1 + absOffset / 90 * (1 / 4)
  let corrected := 90 + offsetFromCenter * correctionFactor
  if corrected < 0 then 0 else if corrected > 180 then 180 else corrected

/-! ## Pipeline instance and facade (`audio_doa.c`, `audio_doa_app.c`) -/

/-- `audio_doa_state_t`. -/
inductive DoaRunState where
  | idle
  | running
  | error
deriving DecidableEq, Repr

/-- `audio_doa_t`: the fields of a successfully constructed pipeline
instance that the data and control paths touch.  The stream buffer holds
raw bytes (capacity 3 frames = 6144 bytes). -/
structure AudioDoaState where
  state : DoaRunState
  hasCallback : Bool
  streamBuffer : List ℕ
  started : Bool
  doaHistory : Fin 7 → ℚ
  doaHistoryIndex : Fin 7
deriving DecidableEq

/-- `audio_doa_data_write`: argument checks, then `xStreamBufferSend` with a
bounded wait, modelled as immediately appending at most the free capacity
(no concurrent consumer progress during the wait).  A short send returns
`ESP_FAIL`, with the partial bytes still enqueued.  The byte count passed
in C is the list's length. -/
def audio_doa_data_write (doa : Option AudioDoaState) (data : Option (List ℕ)) :
    EspErr × Option AudioDoaState :=
  match doa, data with
  | none, _ => (.invalidArg, none)
  | some d, none => (.invalidArg, some d)
  | some d, some bytes =>
    if (bytes.length : ℤ) ≤ 0 then (.invalidArg, some d)
    else
      let free := 6144 - d.streamBuffer.length
      let sent := min bytes.length free
      let d1 := { d with streamBuffer := d.streamBuffer ++ bytes.take sent }
      if sent ≠ bytes.length then (.fail, some d1) else (.ok, some d1)

/-- `audio_doa_app_t`: the facade state. -/
structure AppState where
  doa : AudioDoaState
  tracker : TrackerState
  hasMonitorCallback : Bool
  vadDetect : Bool
deriving DecidableEq

/-- `audio_doa_app_data_write`: argument checks; if the VAD gate is closed,
return `ESP_OK` without touching the pipeline; otherwise forward to
`audio_doa_data_write`. -/
def audio_doa_app_data_write (app : Option AppState) (data : Option (List ℕ)) :
    EspErr × Option AppState :=
  match app, data with
  | none, _ => (.invalidArg, none)
  | some a, none => (.invalidArg, some a)
  | some a, some bytes =>
    if (bytes.length : ℤ) ≤ 0 then (.invalidArg, some a)
    else if a.vadDetect = false then (.ok, some a)
    else
      match audio_doa_data_write (some a.doa) (some bytes) with
      | (r, some d1) => (r, some { a with doa := d1 })
      | (r, none) => (r, some a)

/-! ## Construction and rollback (`audio_doa_new`, `audio_doa_app_create`) -/

/-- Resources allocated during construction. -/
inductive Res where
  | appStruct
  | doaStruct
  | eventGroup
  | streamBuffer
  | doaKernel
  | audioData
  | weights
  | mic0
  | mic1
  | task
  | trackerStruct
deriving DecidableEq, Repr, Fintype

/-- Success/failure oracle: which construction steps succeed. -/
abbrev AllocOracle := Res → Bool

/-- Outcome of a construction call: a clean success, a clean error return,
or a crash from undefined behavior (a NULL config dereferenced). -/
inductive CreateOutcome where
  | success
  | failure (e : EspErr)
  | crash
deriving DecidableEq, Repr

/-- Does a construction outcome report a clean error return? -/
def isFailure (r : CreateOutcome) : Bool :=
  match r with
  | .failure _ => true
  | _ => false

/-- Construction trace of `audio_doa_new`, given whether the caller passed a
non-NULL config: outcome, allocations in program order, frees in program
order, and whether `*doa_handle` was written (the source writes it only at
the very end, on success).  Each failure branch transcribes the
corresponding cleanup sequence of the C function; on task-creation failure
the two mic buffers are freed by the `for` loop in allocation order
(`mic0` then `mic1`).  The source validates only `doa_handle`, never
`config`: after the stream buffer is created it evaluates
`config->distance` for `esp_doa_create`, so a NULL config is dereferenced
there — undefined behavior, modelled as a crash that frees nothing and
does not return. -/
def audio_doa_new (hasConfig : Bool) (o : AllocOracle) :
    CreateOutcome × List Res × List Res × Bool :=
  if ¬ o .doaStruct then (.failure .noMem, [], [], false)
  else if ¬ o .eventGroup then (.failure .noMem, [.doaStruct], [.doaStruct], false)
  else if ¬ o .streamBuffer then
    (.failure .noMem, [.doaStruct, .eventGroup], [.eventGroup, .doaStruct], false)
  else if ¬ hasConfig then
    (.crash, [.doaStruct, .eventGroup, .streamBuffer], [], false)
  else if ¬ o .doaKernel then
    (.failure .noMem, [.doaStruct, .eventGroup, .streamBuffer],
      [.streamBuffer, .eventGroup, .doaStruct], false)
  else if ¬ o .audioData then
    (.failure .noMem, [.doaStruct, .eventGroup, .streamBuffer, .doaKernel],
      [.doaKernel, .streamBuffer, .eventGroup, .doaStruct], false)
  else if ¬ o .weights then
    (.failure .noMem, [.doaStruct, .eventGroup, .streamBuffer, .doaKernel, .audioData],
      [.audioData, .doaKernel, .streamBuffer, .eventGroup, .doaStruct], false)
  else if ¬ o .mic0 then
    (.failure .noMem,
      [.doaStruct, .eventGroup, .streamBuffer, .doaKernel, .audioData, .weights],
      [.weights, .audioData, .doaKernel, .streamBuffer, .eventGroup, .doaStruct], false)
  else if ¬ o .mic1 then
    (.failure .noMem,
      [.doaStruct, .eventGroup, .streamBuffer, .doaKernel, .audioData, .weights, .mic0],
      [.mic0, .weights, .audioData, .doaKernel, .streamBuffer, .eventGroup, .doaStruct],
      false)
  else if ¬ o .task then
    (.failure .fail,
      [.doaStruct, .eventGroup, .streamBuffer, .doaKernel, .audioData, .weights,
        .mic0, .mic1],
      [.mic0, .mic1, .weights, .audioData, .doaKernel, .streamBuffer, .eventGroup,
        .doaStruct],
      false)
  else
    (.success,
      [.doaStruct, .eventGroup, .streamBuffer, .doaKernel, .audioData, .weights,
        .mic0, .mic1, .task],
      [], true)

/-- Construction trace of the facade's `audio_doa_app_create`: outcome,
allocations, frees, and whether `*handle` was written.  The source assigns
`*handle` right after the `calloc` (before any sub-component exists),
returns `ESP_ERR_INVALID_ARG` when the `calloc` itself fails, and calls
`audio_doa_new(&app->doa_handle, NULL)` with a NULL config — so every run
that gets past the stream-buffer creation crashes on the NULL dereference
inside `audio_doa_new`.  On the clean early failures it returns the error
without freeing the app struct.  The success continuation (tracker init,
then start) is transcribed from the source but is unreachable under the
NULL config. -/
def audio_doa_app_create (o : AllocOracle) :
    CreateOutcome × List Res × List Res × Bool :=
  if ¬ o .appStruct then (.failure .invalidArg, [], [], false)
  else
    match audio_doa_new false o with
    | (.crash, allocs, frees, _) => (.crash, .appStruct :: allocs, frees, true)
    | (.failure e, allocs, frees, _) => (.failure e, .appStruct :: allocs, frees, true)
    | (.success, allocs, _, _) =>
      if ¬ o .trackerStruct then (.failure .noMem, .appStruct :: allocs, [], true)
      else (.success, (.appStruct :: allocs) ++ [.trackerStruct], [], true)

/-! ## Concrete fixtures for closed evaluations -/

/-- The tracker state right after `audio_doa_tracker_init` with a non-null
result callback and the given config, followed by
`audio_doa_tracker_enable(true)`, written out explicitly (certified against
the two functions by `enabledTracker_is_init_then_enable` below). -/
def enabledTracker (intervalMs : ℕ) (thresholdCfg : ℚ) : TrackerState :=
  { enabled := true
    buffer := fun _ => 0
    originalBuffer := fun _ => 0
    validMask := fun _ => false
    writeIndex := 0
    validCount := 0
    isFrontFacingMode := false
    isNotFrontFacingDetected := false
    initialSamplesCount := 0
    lastValidAngle := 0
    hasLastValidAngle := false
    lastOutputAngle := 0
    hasOutputAngle := false
    firstNear90Tick := 0
    hasNear90Start := false
    outputIntervalMs := if intervalMs > 0 then intervalMs else 0
    lastOutputTick := 0
    minAngleChangeThreshold := if thresholdCfg > 0 then thresholdCfg else 15 }

/-- Weight vector instantiating `generateGaussianWeights` with a concrete
rational stand-in for the platform's `expf`.  Like the true `expf`, the
stand-in `x ↦ 1 / (1 - x)` is positive and strictly increasing on the
arguments used (`-(i-3)²/2 ≤ 0`), so the resulting vector shares the
properties of the real Gaussian vector that the indexing claims turn on:
it is symmetric about position 3 and its entries are pairwise distinct off
the symmetry. -/
def cexWeights : Fin 7 → ℚ :=
  generateGaussianWeights (fun x => 1 / (1 - x)) 1

/-- An oracle under which every step succeeds except `xEventGroupCreate` —
a clean, UB-free failure path: the NULL config passed by the facade is
never dereferenced before this failure. -/
def oracleEventGroupFail : AllocOracle := fun r => r != Res.eventGroup

/-- An oracle under which every step succeeds except `xTaskCreate`. -/
def oracleTaskFail : AllocOracle := fun r => r != Res.task

/-- An oracle from its 11 component flags (used to finitize proofs about
`audio_doa_new` over plain booleans). -/
def mkOracle (b1 b2 b3 b4 b5 b6 b7 b8 b9 b10 b11 : Bool) : AllocOracle :=
  fun r =>
    match r with
    | .appStruct => b1
    | .doaStruct => b2
    | .eventGroup => b3
    | .streamBuffer => b4
    | .doaKernel => b5
    | .audioData => b6
    | .weights => b7
    | .mic0 => b8
    | .mic1 => b9
    | .task => b10
    | .trackerStruct => b11

/-- A fully-constructed facade instance with the VAD gate closed. -/
def sampleApp : AppState :=
  { doa :=
      { state := .running
        hasCallback := true
        streamBuffer := []
        started := true
        doaHistory := fun _ => 0
        doaHistoryIndex := 0 }
    tracker := enabledTracker 1000 15
    hasMonitorCallback := true
    vadDetect := false }

/-- Invariant: every valid buffer entry is a quantization-bin center
`k·20 + 10` with `k ∈ [0,8]`. -/
def QuantizedBuffer (s : TrackerState) : Prop :=
  ∀ i : Fin 6, s.validMask i = true → ∃ k : ℕ, k ≤ 8 ∧ s.buffer i = 20 * k + 10

/-! ## Shared helper lemmas -/

/-- The fixture `enabledTracker` is exactly init-then-enable. -/
theorem enabledTracker_is_init_then_enable (intervalMs : ℕ) (thresholdCfg : ℚ) :
    (audio_doa_tracker_init ⟨true, intervalMs, thresholdCfg⟩).map
      (fun s => audio_doa_tracker_enable s true) = .ok (enabledTracker intervalMs thresholdCfg) := by
  rfl

/-- Monotonicity of `t ↦ t * |t|`. -/
theorem mul_abs_self_mono {a b : ℚ} (h : a ≤ b) : a * |a| ≤ b * |b| := by
  rcases le_or_lt 0 a with ha | ha
  · rw [abs_of_nonneg ha, abs_of_nonneg (ha.trans h)]
    nlinarith
  · rcases le_or_lt 0 b with hb | hb
    · rw [abs_of_neg ha, abs_of_nonneg hb]
      nlinarith
    · rw [abs_of_neg ha, abs_of_neg hb]
      nlinarith

/-- The output clamp of the calibration is monotone. -/
theorem clamp180_mono {a b : ℚ} (h : a ≤ b) :
    (if a < 0 then 0 else if a > 180 then (180 : ℚ) else a)
      ≤ (if b < 0 then 0 else if b > 180 then (180 : ℚ) else b) := by
  split_ifs <;> linarith

/-! ## Claim theorems -/

/-- Claim C8 (confirmed): the edge-bias calibration `doa_angle_calibration`
is non-decreasing on `[0, 180]`: for all `x ≤ y` in the interval,
`calibrate x ≤ calibrate y`. -/
theorem doa_angle_calibration_monotone (x y : ℚ)
    (hx : 0 ≤ x) (hxy : x ≤ y) (hy : y ≤ 180) :
    doa_angle_calibration x ≤ doa_angle_calibration y := by
  have hx180 : x ≤ 180 := hxy.trans hy
  have hy0 : 0 ≤ y := hx.trans hxy
  unfold doa_angle_calibration
  rw [if_neg (not_lt.mpr hx), if_neg (not_lt.mpr hx180),
      if_neg (not_lt.mpr hy0), if_neg (not_lt.mpr hy)]
  apply clamp180_mono
  have hmul : (x - 90) * |x - 90| ≤ (y - 90) * |y - 90| :=
    mul_abs_self_mono (by linarith)
  have hax : 0 ≤ |x - 90| := abs_nonneg _
  have hay : 0 ≤ |y - 90| := abs_nonneg _
  nlinarith

/-- Witness for C8 at `x = 30`, `y = 120`. -/
theorem doa_angle_calibration_monotone_witness :
    (0 ≤ (30 : ℚ) ∧ (30 : ℚ) ≤ 120 ∧ (120 : ℚ) ≤ 180) ∧
      doa_angle_calibration 30 ≤ doa_angle_calibration 120 :=
  ⟨by norm_num, doa_angle_calibration_monotone 30 120 (by norm_num) (by norm_num) (by norm_num)⟩

/-- Claim C10 (confirmed): the calibration saturates at the endpoints: every
input in `[165, 180]` maps to exactly 180 and every input in `[0, 15]` maps
to exactly 0. -/
theorem doa_angle_calibration_saturates (x : ℚ) :
    (165 ≤ x → x ≤ 180 → doa_angle_calibration x = 180) ∧
    (0 ≤ x → x ≤ 15 → doa_angle_calibration x = 0) := by
  constructor
  · intro h1 h2
    have h0 : ¬ x < 0 := by linarith
    have h180 : ¬ x > 180 := not_lt.mpr h2
    simp only [doa_angle_calibration, if_neg h0, if_neg h180,
      abs_of_nonneg (by linarith : (0 : ℚ) ≤ x - 90)]
    have hbig : 90 + (x - 90) * (1 + (x - 90) / 90 * (1 / 4)) > 180 := by nlinarith
    rw [if_neg (by linarith), if_pos hbig]
  · intro h1 h2
    have h0 : ¬ x < 0 := not_lt.mpr h1
    have h180 : ¬ x > 180 := by linarith
    simp only [doa_angle_calibration, if_neg h0, if_neg h180,
      abs_of_nonpos (by linarith : x - 90 ≤ 0)]
    have hneg : 90 + (x - 90) * (1 + -(x - 90) / 90 * (1 / 4)) < 0 := by nlinarith
    rw [if_pos hneg]

/-- Witness for C10 at `x = 170` and `x = 10`. -/
theorem doa_angle_calibration_saturates_witness :
    ((165 ≤ (170 : ℚ) ∧ (170 : ℚ) ≤ 180) ∧ doa_angle_calibration 170 = 180) ∧
    ((0 ≤ (10 : ℚ) ∧ (10 : ℚ) ≤ 15) ∧ doa_angle_calibration 10 = 0) :=
  ⟨⟨by norm_num, (doa_angle_calibration_saturates 170).1 (by norm_num) (by norm_num)⟩,
   ⟨by norm_num, (doa_angle_calibration_saturates 10).2 (by norm_num) (by norm_num)⟩⟩

/-- Claim C1 (code bug): configuring `min_angle_change_threshold = 0` does
not disable the minimum-change filter.  `audio_doa_tracker_init` replaces a
configured 0 with the 15-degree default, so a subsequent-output decision
whose other conditions hold is still suppressed when the change is below
15 degrees: with interval 0 and configured threshold 0, feeding seven 60s
emits only once (the seventh feed's change is 0 < 15 and is filtered),
whereas the same trace on a state whose stored threshold really is 0 emits
twice — the behavior the header docs and the spec promise for 0. -/
theorem tracker_zero_threshold_not_disabled :
    (audio_doa_tracker_init ⟨true, 0, 0⟩).map (fun s => s.minAngleChangeThreshold)
      = .ok 15 ∧
    (feedTrace (enabledTracker 0 0)
      [(60, 0), (60, 0), (60, 0), (60, 0), (60, 0), (60, 0), (60, 0)]).2 = [70] ∧
    (feedTrace { enabledTracker 0 0 with minAngleChangeThreshold := 0 }
      [(60, 0), (60, 0), (60, 0), (60, 0), (60, 0), (60, 0), (60, 0)]).2 = [70, 70] := by
  refine ⟨rfl, ?_, ?_⟩ <;> decide

/-- Counterexample for C5: after feeding a single angle of 30 to a fresh
enabled tracker, one buffer entry is valid and none is near 90, yet
`buffer_mostly_90` returns true — the source's truncated threshold
`(int)(1 · 2/3) = 0` is met by a zero count, while the claim's ceiling
`⌈1 · 2/3⌉ = 1` is not. -/
theorem buffer_mostly_90_ceiling_counterexample :
    bufferMostly90 (feedTrace (enabledTracker 1000 15) [(30, 0)]).1 = true ∧
    ¬ ((countNear90 (feedTrace (enabledTracker 1000 15) [(30, 0)]).1 : ℤ) ≥
        ⌈((feedTrace (enabledTracker 1000 15) [(30, 0)]).1.validCount : ℚ) * (2 / 3)⌉) := by
  constructor <;> decide

/-- Claim C5 (corrected): `buffer_mostly_90` holds exactly when the buffer
is non-empty and the number of valid entries whose original value is within
6 degrees of 90 is at least the *floor* (C truncation), not the ceiling, of
`valid_count · 2/3`. -/
theorem buffer_mostly_90_floor_spec (s : TrackerState) (h : s.validCount ≤ 6) :
    bufferMostly90 s = true ↔
      (0 < s.validCount ∧
        (countNear90 s : ℤ) ≥ ⌊(s.validCount : ℚ) * (2 / 3)⌋) := by
  unfold bufferMostly90
  rcases Nat.eq_zero_or_pos s.validCount with h0 | hpos
  · simp [h0]
  · rw [if_neg (by omega)]
    have hvc : s.validCount = 1 ∨ s.validCount = 2 ∨ s.validCount = 3 ∨
        s.validCount = 4 ∨ s.validCount = 5 ∨ s.validCount = 6 := by omega
    rcases hvc with h1 | h1 | h1 | h1 | h1 | h1 <;>
      rw [h1] <;> rw [decide_eq_true_iff] <;> norm_num

/-- Witness for C5's corrected statement on the state after one feed of 90. -/
theorem buffer_mostly_90_floor_spec_witness :
    (feedTrace (enabledTracker 1000 15) [(90, 0)]).1.validCount ≤ 6 ∧
      (bufferMostly90 (feedTrace (enabledTracker 1000 15) [(90, 0)]).1 = true ↔
        (0 < (feedTrace (enabledTracker 1000 15) [(90, 0)]).1.validCount ∧
          (countNear90 (feedTrace (enabledTracker 1000 15) [(90, 0)]).1 : ℤ) ≥
            ⌊((feedTrace (enabledTracker 1000 15) [(90, 0)]).1.validCount : ℚ) * (2 / 3)⌋)) :=
  ⟨by decide, buffer_mostly_90_floor_spec _ (by decide)⟩

/-- Folding componentwise sums over a list accumulates the mapped sums. -/
theorem foldl_add_pair {α : Type} (l : List α) (f g : α → ℚ) (a b : ℚ) :
    l.foldl (fun acc x => (acc.1 + f x, acc.2 + g x)) (a, b) =
      (a + (l.map f).sum, b + (l.map g).sum) := by
  induction l generalizing a b with
  | nil => simp
  | cons x xs ih => simp [ih, add_assoc]

/-- The source's circular index agrees with the spec's modulo form at the
same base index. -/
theorem mwaIndex_eq_specIndex : ∀ p i : Fin 7, mwaIndex p i = specIndex p i := by
  decide

/-- The source's windowed average equals the spec's formula evaluated at the
same (pre-increment) index. -/
theorem movingWeightedAverage_eq_spec (data w : Fin 7 → ℚ) (p : Fin 7) :
    movingWeightedAverage data w p = specFilteredAt data w p := by
  unfold movingWeightedAverage specFilteredAt
  rw [foldl_add_pair]
  have h1 : (fun i => data (mwaIndex p i) * w i) = fun i => data (specIndex p i) * w i := by
    funext i
    rw [mwaIndex_eq_specIndex]
  rw [Fin.sum_univ_def, Fin.sum_univ_def, h1]
  simp

/-- Counterexample for C4: writing angle 1 into an all-zero history at
index 0 with the generated weight vector `cexWeights` produces the filtered
value `w₀ = 2/37` (the weight-0 slot is the just-stored sample), whereas the
claim's formula at the incremented index yields `w₁ = 11/111 ≠ 2/37`. -/
theorem conditioner_post_increment_counterexample :
    (conditionerStep (fun _ => 0) 0 cexWeights 1).2.2 = 2 / 37 ∧
    specFilteredAt (conditionerStep (fun _ => 0) 0 cexWeights 1).1 cexWeights
        (conditionerStep (fun _ => 0) 0 cexWeights 1).2.1 = 11 / 111 ∧
    (2 / 37 : ℚ) ≠ 11 / 111 := by
  refine ⟨by decide, by decide, by decide⟩

/-- Claim C4 (corrected): the conditioner stores the raw angle at
`history[idx]` and advances `idx` mod 7, but the filtered value is the
spec's weighted-sum formula evaluated at the *pre-increment* index (weight
`w[i]` applies to the slot `i` positions before, and including, the stored
slot), not at the incremented index. -/
theorem conditioner_pre_increment_formula (hist : Fin 7 → ℚ) (idx : Fin 7)
    (w : Fin 7 → ℚ) (angle : ℚ) :
    conditionerStep hist idx w angle =
      (Function.update hist idx angle, idx + 1,
        specFilteredAt (Function.update hist idx angle) w idx) := by
  simp only [conditionerStep]
  rw [movingWeightedAverage_eq_spec]

/-- `check_continuous_90_duration` only touches `is_front_facing_mode`. -/
theorem checkContinuous90Duration_preserves (s : TrackerState) (now : ℕ) :
    (checkContinuous90Duration s now).1.buffer = s.buffer ∧
    (checkContinuous90Duration s now).1.originalBuffer = s.originalBuffer ∧
    (checkContinuous90Duration s now).1.validMask = s.validMask ∧
    (checkContinuous90Duration s now).1.writeIndex = s.writeIndex ∧
    (checkContinuous90Duration s now).1.validCount = s.validCount ∧
    (checkContinuous90Duration s now).1.lastValidAngle = s.lastValidAngle ∧
    (checkContinuous90Duration s now).1.hasLastValidAngle = s.hasLastValidAngle ∧
    (checkContinuous90Duration s now).1.lastOutputAngle = s.lastOutputAngle ∧
    (checkContinuous90Duration s now).1.hasOutputAngle = s.hasOutputAngle ∧
    (checkContinuous90Duration s now).1.outputIntervalMs = s.outputIntervalMs ∧
    (checkContinuous90Duration s now).1.lastOutputTick = s.lastOutputTick ∧
    (checkContinuous90Duration s now).1.minAngleChangeThreshold = s.minAngleChangeThreshold ∧
    (checkContinuous90Duration s now).1.enabled = s.enabled := by
  unfold checkContinuous90Duration
  split_ifs <;> simp_all

/-- `is_angle_valid` only touches the 90-tracking timer and the
front-facing flag: the buffer, counters and output fields pass through. -/
theorem isAngleValid_preserves (angle : ℚ) (s : TrackerState) (now : ℕ) :
    (isAngleValid angle s now).1.buffer = s.buffer ∧
    (isAngleValid angle s now).1.originalBuffer = s.originalBuffer ∧
    (isAngleValid angle s now).1.validMask = s.validMask ∧
    (isAngleValid angle s now).1.writeIndex = s.writeIndex ∧
    (isAngleValid angle s now).1.validCount = s.validCount ∧
    (isAngleValid angle s now).1.lastValidAngle = s.lastValidAngle ∧
    (isAngleValid angle s now).1.hasLastValidAngle = s.hasLastValidAngle ∧
    (isAngleValid angle s now).1.lastOutputAngle = s.lastOutputAngle ∧
    (isAngleValid angle s now).1.hasOutputAngle = s.hasOutputAngle ∧
    (isAngleValid angle s now).1.outputIntervalMs = s.outputIntervalMs ∧
    (isAngleValid angle s now).1.lastOutputTick = s.lastOutputTick ∧
    (isAngleValid angle s now).1.minAngleChangeThreshold = s.minAngleChangeThreshold ∧
    (isAngleValid angle s now).1.enabled = s.enabled := by
  unfold isAngleValid
  by_cases h1 : isNear90 angle = true
  case neg => simp [h1, reset90Tracking]
  case pos =>
    by_cases h2 : s.isFrontFacingMode = true
    · simp [h1, h2]
    · simp only [h1, h2, Bool.false_eq_true, not_false_eq_true, not_true_eq_false,
        if_true, if_false, ite_false, ite_true]
      rcases hC : checkContinuous90Duration (start90Tracking s now) now with ⟨t, b⟩
      have hts := checkContinuous90Duration_preserves (start90Tracking s now) now
      rw [hC] at hts
      have hss : (start90Tracking s now).buffer = s.buffer ∧
          (start90Tracking s now).originalBuffer = s.originalBuffer ∧
          (start90Tracking s now).validMask = s.validMask ∧
          (start90Tracking s now).writeIndex = s.writeIndex ∧
          (start90Tracking s now).validCount = s.validCount ∧
          (start90Tracking s now).lastValidAngle = s.lastValidAngle ∧
          (start90Tracking s now).hasLastValidAngle = s.hasLastValidAngle ∧
          (start90Tracking s now).lastOutputAngle = s.lastOutputAngle ∧
          (start90Tracking s now).hasOutputAngle = s.hasOutputAngle ∧
          (start90Tracking s now).outputIntervalMs = s.outputIntervalMs ∧
          (start90Tracking s now).lastOutputTick = s.lastOutputTick ∧
          (start90Tracking s now).minAngleChangeThreshold = s.minAngleChangeThreshold ∧
          (start90Tracking s now).enabled = s.enabled := by
        unfold start90Tracking
        split_ifs <;> simp_all
      cases b
      · dsimp only
        split_ifs <;> simp_all [reset90Tracking]
      · dsimp only
        simp_all

/-- `check_initial_samples` only touches the two mode flags and the probe
counter. -/
theorem checkInitialSamples_preserves (s : TrackerState) :
    (checkInitialSamples s).buffer = s.buffer ∧
    (checkInitialSamples s).originalBuffer = s.originalBuffer ∧
    (checkInitialSamples s).validMask = s.validMask ∧
    (checkInitialSamples s).writeIndex = s.writeIndex ∧
    (checkInitialSamples s).validCount = s.validCount ∧
    (checkInitialSamples s).lastValidAngle = s.lastValidAngle ∧
    (checkInitialSamples s).hasLastValidAngle = s.hasLastValidAngle ∧
    (checkInitialSamples s).lastOutputAngle = s.lastOutputAngle ∧
    (checkInitialSamples s).hasOutputAngle = s.hasOutputAngle ∧
    (checkInitialSamples s).outputIntervalMs = s.outputIntervalMs ∧
    (checkInitialSamples s).lastOutputTick = s.lastOutputTick ∧
    (checkInitialSamples s).minAngleChangeThreshold = s.minAngleChangeThreshold ∧
    (checkInitialSamples s).enabled = s.enabled ∧
    (checkInitialSamples s).hasNear90Start = s.hasNear90Start ∧
    (checkInitialSamples s).firstNear90Tick = s.firstNear90Tick := by
  unfold checkInitialSamples
  dsimp only
  split_ifs <;> simp_all

/-- If the output history is clear and the buffer is not full, the output
block emits nothing. -/
theorem outputDecision_none_of_not_full (s : TrackerState) (now : ℕ)
    (h1 : s.hasOutputAngle = false) (h2 : s.validCount < 6) :
    (outputDecision s now).2 = none := by
  unfold outputDecision
  rw [if_pos (by simp [h1])]
  rw [if_neg (by omega)]

/-- Subsequent-path bound: if the tracker already has an output and the
output block emits, the emission respects the 40-degree ceiling. -/
theorem outputDecision_bounded (s : TrackerState) (now : ℕ)
    (h : s.hasOutputAngle = true) (out : ℚ)
    (hout : (outputDecision s now).2 = some out) :
    |out - s.lastOutputAngle| ≤ 40 := by
  unfold outputDecision at hout
  rw [if_neg (by simp [h])] at hout
  dsimp only at hout
  split_ifs at hout <;> simp_all [emitOutput]

/-- Counterexample for C2: feeding six 90s then six 10s to a fresh enabled
tracker emits 90 (first output), then the seventh feed's major-jump check
resets all state including the output history, and the twelfth feed takes
the *first-output* path again, emitting 10 with no 40-degree check: two
consecutive emissions 80 degrees apart. -/
theorem tracker_output_jump_after_reset_counterexample :
    (feedTrace (enabledTracker 1000 15)
      [(90, 0), (90, 0), (90, 0), (90, 0), (90, 0), (90, 0),
       (10, 0), (10, 0), (10, 0), (10, 0), (10, 0), (10, 0)]).2 = [90, 10] ∧
    ¬ (|(10 : ℚ) - 90| ≤ 40) := by
  constructor <;> decide

/-- Claim C2 (corrected): the 40-degree ceiling holds only between an
emission and the *next emission made while the output history is intact*
(the subsequent-output path): if `feed` emits from a state that already has
an output, the emitted angle is within 40 degrees of the previous one.  A
major-jump reset in between clears the output history, and the following
first-output emission is not constrained (see the counterexample). -/
theorem tracker_subsequent_output_bounded (s : TrackerState) (angle : ℚ) (now : ℕ)
    (h : s.hasOutputAngle = true) (out : ℚ)
    (hout : (audio_doa_tracker_feed s angle now).2 = some out) :
    |out - s.lastOutputAngle| ≤ 40 := by
  unfold audio_doa_tracker_feed at hout
  by_cases hen : s.enabled = true
  case neg =>
    rw [if_pos (by simp [hen])] at hout
    exact absurd hout (by simp)
  case pos =>
    rw [if_neg (by simp [hen])] at hout
    dsimp only at hout
    rcases hIA : isAngleValid angle s now with ⟨s1, b⟩
    rw [hIA] at hout
    cases b
    case false => exact absurd hout (by simp)
    case true =>
      dsimp only at hout
      obtain ⟨-, -, -, -, -, -, -, hlo1, hho1, -, -, -, -⟩ := isAngleValid_preserves angle s now
      rw [hIA] at hlo1 hho1
      by_cases hrt : 0 < s.validCount ∧ s1.validCount ≥ 6 ∧
          |angle - calculateAverageAngle s| > 30
      · rw [if_pos hrt] at hout
        have hnone : (outputDecision
            (checkInitialSamples
              (insertSample (resetTrackerState s1) (quantizeAngle angle) angle)) now).2 =
            none := by
          obtain ⟨-, -, -, -, hvc4, -, -, -, hho4, -, -, -, -, -, -⟩ :=
            checkInitialSamples_preserves
              (insertSample (resetTrackerState s1) (quantizeAngle angle) angle)
          apply outputDecision_none_of_not_full
          · rw [hho4]
            rfl
          · rw [hvc4]
            simp [insertSample, resetTrackerState]
        rw [hnone] at hout
        exact absurd hout (by simp)
      · rw [if_neg hrt] at hout
        obtain ⟨-, -, -, -, -, -, -, hlo4, hho4, -, -, -, -, -, -⟩ :=
          checkInitialSamples_preserves (insertSample s1 (quantizeAngle angle) angle)
        have hkey := outputDecision_bounded
          (checkInitialSamples (insertSample s1 (quantizeAngle angle) angle)) now
          (by rw [hho4]; simpa [insertSample] using hho1.trans h) out hout
        rwa [hlo4, show (insertSample s1 (quantizeAngle angle) angle).lastOutputAngle =
          s1.lastOutputAngle from rfl, hlo1] at hkey

/-- Witness for C2's corrected statement: after six feeds of 150 (first
output 150), a feed of 130 once the interval has elapsed emits the biased
weighted average 591/4 = 147.75, within 40 degrees of 150. -/
theorem tracker_subsequent_output_bounded_witness :
    (feedTrace (enabledTracker 1000 (1 / 100))
      [(150, 0), (150, 0), (150, 0), (150, 0), (150, 0), (150, 0)]).1.hasOutputAngle =
        true ∧
    (audio_doa_tracker_feed
      (feedTrace (enabledTracker 1000 (1 / 100))
        [(150, 0), (150, 0), (150, 0), (150, 0), (150, 0), (150, 0)]).1 130 2000).2 =
      some (591 / 4) ∧
    |(591 / 4 : ℚ) -
        (feedTrace (enabledTracker 1000 (1 / 100))
          [(150, 0), (150, 0), (150, 0), (150, 0), (150, 0), (150, 0)]).1.lastOutputAngle| ≤
      40 :=
  ⟨by decide, by decide,
    tracker_subsequent_output_bounded _ 130 2000 (by decide) (591 / 4) (by decide)⟩

/-- Claim C9 (confirmed): with the VAD gate closed, `data_write` on non-null
data of positive length returns `ESP_OK` and leaves the entire facade state
(stream buffer, conditioner, tracker) unchanged. -/
theorem data_write_vad_closed_noop (a : AppState) (bytes : List ℕ)
    (hv : a.vadDetect = false) (hlen : 0 < bytes.length) :
    audio_doa_app_data_write (some a) (some bytes) = (.ok, some a) := by
  simp only [audio_doa_app_data_write]
  rw [if_neg (by omega : ¬ ((bytes.length : ℤ) ≤ 0)), if_pos hv]

/-- Witness for C9 on a concrete constructed facade and a 3-byte write. -/
theorem data_write_vad_closed_noop_witness :
    sampleApp.vadDetect = false ∧ 0 < [1, 2, 3].length ∧
      audio_doa_app_data_write (some sampleApp) (some [1, 2, 3]) = (.ok, some sampleApp) :=
  ⟨rfl, by decide, data_write_vad_closed_noop sampleApp [1, 2, 3] rfl (by decide)⟩

/-- Counterexample for C3: when the event-group creation fails — a clean
failure path of the facade's create on which the NULL config is never
dereferenced — an error is returned, but the out-parameter `*handle` has
already been written with the partial object, and the app struct is
allocated yet never freed, so the frees are not the prior allocations in
reverse order. -/
theorem app_create_no_rollback_counterexample :
    isFailure (audio_doa_app_create oracleEventGroupFail).1 = true ∧
    (audio_doa_app_create oracleEventGroupFail).2.2.2 = true ∧
    (audio_doa_app_create oracleEventGroupFail).2.2.1 ≠
      (audio_doa_app_create oracleEventGroupFail).2.1.reverse ∧
    Res.appStruct ∈ (audio_doa_app_create oracleEventGroupFail).2.1 ∧
    Res.appStruct ∉ (audio_doa_app_create oracleEventGroupFail).2.2.1 := by
  refine ⟨by decide, by decide, by decide, by decide, by decide⟩

/-- Every oracle is `mkOracle` of its component flags. -/
theorem mkOracle_eta (o : AllocOracle) :
    mkOracle (o .appStruct) (o .doaStruct) (o .eventGroup) (o .streamBuffer)
      (o .doaKernel) (o .audioData) (o .weights) (o .mic0) (o .mic1) (o .task)
      (o .trackerStruct) = o := by
  funext r
  cases r <;> rfl

set_option maxRecDepth 8000 in
/-- Rollback and crash characterization of the constructors, finitized over
the oracle flags. -/
theorem audio_doa_new_rollback_bools :
    ∀ b1 b2 b3 b4 b5 b6 b7 b8 b9 b10 b11 : Bool,
      (audio_doa_new true (mkOracle b1 b2 b3 b4 b5 b6 b7 b8 b9 b10 b11)).1 ≠
          CreateOutcome.crash ∧
      (isFailure (audio_doa_new true (mkOracle b1 b2 b3 b4 b5 b6 b7 b8 b9 b10 b11)).1 =
          true →
        (audio_doa_new true (mkOracle b1 b2 b3 b4 b5 b6 b7 b8 b9 b10 b11)).2.2.1.Perm
            (audio_doa_new true (mkOracle b1 b2 b3 b4 b5 b6 b7 b8 b9 b10 b11)).2.1 ∧
          (audio_doa_new true (mkOracle b1 b2 b3 b4 b5 b6 b7 b8 b9 b10 b11)).2.2.2 =
            false ∧
          ((audio_doa_new true (mkOracle b1 b2 b3 b4 b5 b6 b7 b8 b9 b10 b11)).2.2.1 =
              (audio_doa_new true (mkOracle b1 b2 b3 b4 b5 b6 b7 b8 b9 b10 b11)).2.1.reverse ∨
            (audio_doa_new true (mkOracle b1 b2 b3 b4 b5 b6 b7 b8 b9 b10 b11)).2.2.1 =
              [.mic0, .mic1, .weights, .audioData, .doaKernel, .streamBuffer,
                .eventGroup, .doaStruct])) ∧
      ((mkOracle b1 b2 b3 b4 b5 b6 b7 b8 b9 b10 b11) .appStruct = true →
        (mkOracle b1 b2 b3 b4 b5 b6 b7 b8 b9 b10 b11) .doaStruct = true →
        (mkOracle b1 b2 b3 b4 b5 b6 b7 b8 b9 b10 b11) .eventGroup = true →
        (mkOracle b1 b2 b3 b4 b5 b6 b7 b8 b9 b10 b11) .streamBuffer = true →
        (audio_doa_app_create (mkOracle b1 b2 b3 b4 b5 b6 b7 b8 b9 b10 b11)).1 =
          CreateOutcome.crash) := by
  decide

/-- Claim C3 (corrected): the all-or-nothing property holds for the inner
constructor `audio_doa_new` when it is given a non-NULL config — it never
hits undefined behavior, and on any failure it frees exactly the
previously allocated resources (in reverse allocation order on every path
except task-creation failure, where the two mic channel buffers are freed
in allocation order) and never writes the out-parameter.  The facade's
create is not all-or-nothing: it passes a NULL config, so on every run in
which the app `calloc`, the pipeline struct `malloc`, the event group and
the stream buffer all succeed, the source crashes dereferencing the config
at `esp_doa_create` instead of returning; and on the clean early failures
it returns an error having already published the handle and leaking the
app struct (see the counterexample). -/
theorem audio_doa_new_rollback (o : AllocOracle) :
    (audio_doa_new true o).1 ≠ CreateOutcome.crash ∧
    (isFailure (audio_doa_new true o).1 = true →
      (audio_doa_new true o).2.2.1.Perm (audio_doa_new true o).2.1 ∧
      (audio_doa_new true o).2.2.2 = false ∧
      ((audio_doa_new true o).2.2.1 = (audio_doa_new true o).2.1.reverse ∨
        (audio_doa_new true o).2.2.1 =
          [.mic0, .mic1, .weights, .audioData, .doaKernel, .streamBuffer,
            .eventGroup, .doaStruct])) ∧
    (o .appStruct = true → o .doaStruct = true → o .eventGroup = true →
      o .streamBuffer = true →
      (audio_doa_app_create o).1 = CreateOutcome.crash) := by
  rw [← mkOracle_eta o]
  exact audio_doa_new_rollback_bools _ _ _ _ _ _ _ _ _ _ _

/-- Witness for C3's corrected statement at the task-failure oracle: the
inner constructor fails cleanly with a full rollback, while the facade's
create at the same oracle crashes on the NULL config. -/
theorem audio_doa_new_rollback_witness :
    (isFailure (audio_doa_new true oracleTaskFail).1 = true ∧
      oracleTaskFail .appStruct = true ∧ oracleTaskFail .doaStruct = true ∧
      oracleTaskFail .eventGroup = true ∧ oracleTaskFail .streamBuffer = true) ∧
    ((audio_doa_new true oracleTaskFail).1 ≠ CreateOutcome.crash ∧
      ((audio_doa_new true oracleTaskFail).2.2.1.Perm
          (audio_doa_new true oracleTaskFail).2.1 ∧
        (audio_doa_new true oracleTaskFail).2.2.2 = false ∧
        ((audio_doa_new true oracleTaskFail).2.2.1 =
            (audio_doa_new true oracleTaskFail).2.1.reverse ∨
          (audio_doa_new true oracleTaskFail).2.2.1 =
            [.mic0, .mic1, .weights, .audioData, .doaKernel, .streamBuffer,
              .eventGroup, .doaStruct])) ∧
      (audio_doa_app_create oracleTaskFail).1 = CreateOutcome.crash) :=
  ⟨⟨by decide, by decide, by decide, by decide, by decide⟩,
    (audio_doa_new_rollback oracleTaskFail).1,
    (audio_doa_new_rollback oracleTaskFail).2.1 (by decide),
    (audio_doa_new_rollback oracleTaskFail).2.2 (by decide) (by decide) (by decide)
      (by decide)⟩


/-- Every quantizer result is a bin center `k*20 + 10`, `k ∈ [0,8]`. -/
theorem quantizeAngle_shape (angle : ℚ) :
    ∃ k : ℕ, k ≤ 8 ∧ quantizeAngle angle = 20 * k + 10 := by
  unfold quantizeAngle
  by_cases h1 : angle < 0
  · simp only [if_pos h1]
    exact ⟨0, by norm_num, by norm_num⟩
  · by_cases h2 : angle > 180
    · simp only [if_neg h1, if_pos h2]
      exact ⟨8, by norm_num, by norm_num⟩
    · simp only [if_neg h1, if_neg h2]
      by_cases h3 : ⌊angle / 20⌋ ≥ 9
      · simp only [if_pos h3]
        exact ⟨8, by norm_num, by norm_num⟩
      · simp only [if_neg h3]
        have hnn : (0 : ℚ) ≤ angle / 20 := by
          have h4 : (0 : ℚ) ≤ angle := not_lt.mp h1
          positivity
        have h0 : 0 ≤ ⌊angle / 20⌋ := Int.floor_nonneg.mpr hnn
        refine ⟨⌊angle / 20⌋.toNat, by omega, ?_⟩
        have hc : ((⌊angle / 20⌋.toNat : ℕ) : ℚ) = ((⌊angle / 20⌋ : ℤ) : ℚ) := by
          exact_mod_cast Int.toNat_of_nonneg h0
        rw [hc]
        ring

/-- The edge bias keeps its result inside `[0,180]` whenever its three
inputs are. -/
theorem applyAngleBias_range {avg mn mx : ℚ} (h1 : 0 ≤ avg) (h2 : avg ≤ 180)
    (h3 : 0 ≤ mn) (h4 : mn ≤ 180) (h5 : 0 ≤ mx) (h6 : mx ≤ 180) :
    0 ≤ applyAngleBias avg mn mx ∧ applyAngleBias avg mn mx ≤ 180 := by
  unfold applyAngleBias
  split_ifs <;> constructor <;> linarith

/-- A fold preserves any invariant its step preserves. -/
theorem foldl_invariant {α β : Type} (P : β → Prop) (step : β → α → β) (l : List α)
    (init : β) (h0 : P init) (hstep : ∀ b a, P b → P (step b a)) :
    P (l.foldl step init) := by
  induction l generalizing init with
  | nil => exact h0
  | cons x xs ih => exact ih _ (hstep _ _ h0)

/-- The plain first-output average stays in `[0,180]` when all valid
entries do. -/
theorem calculateFirstOutputAngle_range (s : TrackerState)
    (hB : ∀ i, s.validMask i = true → 0 ≤ s.buffer i ∧ s.buffer i ≤ 180) :
    0 ≤ calculateFirstOutputAngle s ∧ calculateFirstOutputAngle s ≤ 180 := by
  unfold calculateFirstOutputAngle
  split_ifs with h0
  · norm_num
  · dsimp only
    have hacc := foldl_invariant
      (P := fun acc : AvgAcc => 0 ≤ acc.wsum ∧ acc.wsum ≤ 180 * acc.wtot ∧
        0 ≤ acc.wtot ∧ 0 ≤ acc.minA ∧ acc.minA ≤ 180 ∧ 0 ≤ acc.maxA ∧ acc.maxA ≤ 180)
      (fun (acc : AvgAcc) i =>
        if s.validMask i then
          { wsum := acc.wsum + s.buffer i
            wtot := acc.wtot + 1
            minA := if s.buffer i < acc.minA then s.buffer i else acc.minA
            maxA := if s.buffer i > acc.maxA then s.buffer i else acc.maxA }
        else acc)
      (List.finRange 6)
      ⟨0, 0, 180, 0⟩
      (by norm_num)
      (by
        intro b a hb
        obtain ⟨hb1, hb2, hb3, hb4, hb5, hb6, hb7⟩ := hb
        by_cases hv : s.validMask a = true
        · obtain ⟨ha1, ha2⟩ := hB a hv
          simp only [hv, if_true]
          refine ⟨by linarith, by linarith, by linarith, ?_, ?_, ?_, ?_⟩ <;>
            dsimp only <;> split_ifs <;> linarith
        · simp only [hv, if_false, Bool.false_eq_true]
          exact ⟨hb1, hb2, hb3, hb4, hb5, hb6, hb7⟩)
    obtain ⟨h1, h2, h3, h4, h5, h6, h7⟩ := hacc
    split_ifs with hw0
    · norm_num
    · have hpos : 0 < ((List.finRange 6).foldl
          (fun (acc : AvgAcc) i =>
            if s.validMask i then
              { wsum := acc.wsum + s.buffer i
                wtot := acc.wtot + 1
                minA := if s.buffer i < acc.minA then s.buffer i else acc.minA
                maxA := if s.buffer i > acc.maxA then s.buffer i else acc.maxA }
            else acc)
          ⟨0, 0, 180, 0⟩).wtot := lt_of_le_of_ne h3 (Ne.symm hw0)
      exact applyAngleBias_range (div_nonneg h1 h3) (by rw [div_le_iff₀ hpos]; linarith)
        h4 h5 h6 h7

/-- The weighted average stays in `[0,180]` when all valid entries do. -/
theorem calculateAverageAngle_range (s : TrackerState)
    (hB : ∀ i, s.validMask i = true → 0 ≤ s.buffer i ∧ s.buffer i ≤ 180) :
    0 ≤ calculateAverageAngle s ∧ calculateAverageAngle s ≤ 180 := by
  unfold calculateAverageAngle
  split_ifs with h0
  · norm_num
  · dsimp only
    have hacc := foldl_invariant
      (P := fun acc : AvgAcc => 0 ≤ acc.wsum ∧ acc.wsum ≤ 180 * acc.wtot ∧
        0 ≤ acc.wtot ∧ 0 ≤ acc.minA ∧ acc.minA ≤ 180 ∧ 0 ≤ acc.maxA ∧ acc.maxA ≤ 180)
      (fun (acc : AvgAcc) i =>
        if s.validMask i then
          let w : ℚ := if i = s.writeIndex + 5 then 3 else 1
          { wsum := acc.wsum + s.buffer i * w
            wtot := acc.wtot + w
            minA := if s.buffer i < acc.minA then s.buffer i else acc.minA
            maxA := if s.buffer i > acc.maxA then s.buffer i else acc.maxA }
        else acc)
      (List.finRange 6)
      ⟨0, 0, 180, 0⟩
      (by norm_num)
      (by
        intro b a hb
        obtain ⟨hb1, hb2, hb3, hb4, hb5, hb6, hb7⟩ := hb
        by_cases hv : s.validMask a = true
        · obtain ⟨ha1, ha2⟩ := hB a hv
          simp only [hv, if_true]
          set w : ℚ := if a = s.writeIndex + 5 then 3 else 1 with hwdef
          have hw0 : 0 ≤ w := by
            rw [hwdef]
            split_ifs <;> norm_num
          have hmul : s.buffer a * w ≤ 180 * w := mul_le_mul_of_nonneg_right ha2 hw0
          have hmul0 : 0 ≤ s.buffer a * w := mul_nonneg ha1 hw0
          refine ⟨by linarith, by linarith, by linarith, ?_, ?_, ?_, ?_⟩ <;>
            dsimp only <;> split_ifs <;> linarith
        · simp only [hv, if_false, Bool.false_eq_true]
          exact ⟨hb1, hb2, hb3, hb4, hb5, hb6, hb7⟩)
    obtain ⟨h1, h2, h3, h4, h5, h6, h7⟩ := hacc
    split_ifs with hw0
    · norm_num
    · have hpos : 0 < ((List.finRange 6).foldl
          (fun (acc : AvgAcc) i =>
            if s.validMask i then
              let w : ℚ := if i = s.writeIndex + 5 then 3 else 1
              { wsum := acc.wsum + s.buffer i * w
                wtot := acc.wtot + w
                minA := if s.buffer i < acc.minA then s.buffer i else acc.minA
                maxA := if s.buffer i > acc.maxA then s.buffer i else acc.maxA }
            else acc)
          ⟨0, 0, 180, 0⟩).wtot := lt_of_le_of_ne h3 (Ne.symm hw0)
      exact applyAngleBias_range (div_nonneg h1 h3) (by rw [div_le_iff₀ hpos]; linarith)
        h4 h5 h6 h7

/-- The output block never writes the buffer or the mask. -/
theorem outputDecision_preserves_buffer (s : TrackerState) (now : ℕ) :
    (outputDecision s now).1.buffer = s.buffer ∧
    (outputDecision s now).1.validMask = s.validMask := by
  unfold outputDecision
  dsimp only
  split_ifs <;> simp [emitOutput]

/-- Anything the output block emits is one of the two averages. -/
theorem outputDecision_output_shape (s : TrackerState) (now : ℕ) (out : ℚ)
    (h : (outputDecision s now).2 = some out) :
    out = calculateFirstOutputAngle s ∨ out = calculateAverageAngle s := by
  unfold outputDecision at h
  dsimp only at h
  split_ifs at h <;> simp_all [emitOutput]

/-- One `feed` step preserves the quantized-buffer invariant, and any
emission lies in `[0,180]`. -/
theorem feed_quantized_and_range (s : TrackerState) (angle : ℚ) (now : ℕ)
    (hQ : QuantizedBuffer s) :
    QuantizedBuffer (audio_doa_tracker_feed s angle now).1 ∧
      ∀ out, (audio_doa_tracker_feed s angle now).2 = some out →
        0 ≤ out ∧ out ≤ 180 := by
  unfold audio_doa_tracker_feed
  by_cases hen : s.enabled = true
  case neg =>
    rw [if_pos (by simp [hen])]
    exact ⟨hQ, fun out h => absurd h (by simp)⟩
  case pos =>
    rw [if_neg (by simp [hen])]
    dsimp only
    rcases hIA : isAngleValid angle s now with ⟨s1, b⟩
    obtain ⟨hb1, -, hm1, -, -, -, -, -, -, -, -, -, -⟩ := isAngleValid_preserves angle s now
    rw [hIA] at hb1 hm1
    dsimp only at hb1 hm1
    have hQ1 : QuantizedBuffer s1 := by
      intro i hi
      rw [hb1]
      exact hQ i (by rw [← hm1]; exact hi)
    cases b
    case false => exact ⟨hQ1, fun out h => absurd h (by simp)⟩
    case true =>
      dsimp only
      have hQ2 : QuantizedBuffer
          (if 0 < s.validCount ∧ s1.validCount ≥ 6 ∧
              |angle - calculateAverageAngle s| > 30 then
            resetTrackerState s1 else s1) := by
        split_ifs
        · intro i hi
          simp [resetTrackerState] at hi
        · exact hQ1
      set s2 := if 0 < s.validCount ∧ s1.validCount ≥ 6 ∧
          |angle - calculateAverageAngle s| > 30 then resetTrackerState s1 else s1 with hs2
      have hQ3 : QuantizedBuffer (insertSample s2 (quantizeAngle angle) angle) := by
        intro i hi
        simp only [insertSample]
        rcases eq_or_ne i s2.writeIndex with he | hne
        · rw [he, Function.update_same]
          exact quantizeAngle_shape angle
        · rw [Function.update_noteq hne]
          apply hQ2
          simpa [insertSample, Function.update_noteq hne] using hi
      obtain ⟨hcb, -, hcm, -, -, -, -, -, -, -, -, -, -, -, -⟩ :=
        checkInitialSamples_preserves (insertSample s2 (quantizeAngle angle) angle)
      have hQ4 : QuantizedBuffer
          (checkInitialSamples (insertSample s2 (quantizeAngle angle) angle)) := by
        intro i hi
        rw [hcb]
        exact hQ3 i (by rw [← hcm]; exact hi)
      have hB4 : ∀ i, (checkInitialSamples
            (insertSample s2 (quantizeAngle angle) angle)).validMask i = true →
          0 ≤ (checkInitialSamples
            (insertSample s2 (quantizeAngle angle) angle)).buffer i ∧
          (checkInitialSamples
            (insertSample s2 (quantizeAngle angle) angle)).buffer i ≤ 180 := by
        intro i hi
        obtain ⟨k, hk, he⟩ := hQ4 i hi
        have hkq : (k : ℚ) ≤ 8 := by exact_mod_cast hk
        constructor <;> rw [he] <;> [positivity; linarith]
      constructor
      · obtain ⟨hob, hom⟩ := outputDecision_preserves_buffer
          (checkInitialSamples (insertSample s2 (quantizeAngle angle) angle)) now
        intro i hi
        rw [hob]
        exact hQ4 i (by rw [← hom]; exact hi)
      · intro out hout
        rcases outputDecision_output_shape _ now out hout with he | he
        · rw [he]
          exact calculateFirstOutputAngle_range _ hB4
        · rw [he]
          exact calculateAverageAngle_range _ hB4

/-- Trace form of `feed_quantized_and_range`. -/
theorem feedTrace_quantized_and_range (s : TrackerState) (inputs : List (ℚ × ℕ))
    (hQ : QuantizedBuffer s) :
    QuantizedBuffer (feedTrace s inputs).1 ∧
      ∀ out ∈ (feedTrace s inputs).2, 0 ≤ out ∧ out ≤ 180 := by
  induction inputs generalizing s with
  | nil => exact ⟨hQ, by simp [feedTrace]⟩
  | cons p rest ih =>
    obtain ⟨a, t⟩ := p
    have hstep := feed_quantized_and_range s a t hQ
    have hrest := ih (audio_doa_tracker_feed s a t).1 hstep.1
    unfold feedTrace
    dsimp only
    refine ⟨hrest.1, ?_⟩
    intro out hmem
    rcases List.mem_append.mp hmem with hm | hm
    · rcases ho : (audio_doa_tracker_feed s a t).2 with - | v
      · rw [ho] at hm
        simp at hm
      · rw [ho] at hm
        simp only [Option.toList_some, List.mem_singleton] at hm
        subst hm
        exact hstep.2 out ho
    · exact hrest.2 out hm


/-- Claim C6 (confirmed): for any stream of `(angle, tick)` inputs fed to a
freshly enabled tracker, every angle passed to the result callback lies in
`[0, 180]` degrees. -/
theorem tracker_outputs_in_range (s0 : TrackerState) (inputs : List (ℚ × ℕ)) (out : ℚ)
    (h : out ∈ (feedTrace (audio_doa_tracker_enable s0 true) inputs).2) :
    0 ≤ out ∧ out ≤ 180 :=
  (feedTrace_quantized_and_range (audio_doa_tracker_enable s0 true) inputs
    (by
      intro i hi
      simp [audio_doa_tracker_enable, resetTrackerState] at hi)).2 out h

/-- Witness for C6: six feeds of 90 emit exactly 90. -/
theorem tracker_outputs_in_range_witness :
    (90 : ℚ) ∈ (feedTrace (audio_doa_tracker_enable (enabledTracker 1000 15) true)
      [(90, 0), (90, 0), (90, 0), (90, 0), (90, 0), (90, 0)]).2 ∧
    (0 ≤ (90 : ℚ) ∧ (90 : ℚ) ≤ 180) :=
  ⟨by decide, tracker_outputs_in_range (enabledTracker 1000 15)
    [(90, 0), (90, 0), (90, 0), (90, 0), (90, 0), (90, 0)] 90 (by decide)⟩

/-- Claim C7 (confirmed): after any sequence of feeds on a freshly enabled
tracker, every valid buffer entry is `k*20 + 10` with `k ∈ [0,8]`, and
quantization clamps the bin index to 8, storing 180 degrees as 170. -/
theorem tracker_buffer_quantized (s0 : TrackerState) (inputs : List (ℚ × ℕ)) (i : Fin 6)
    (h : (feedTrace (audio_doa_tracker_enable s0 true) inputs).1.validMask i = true) :
    (∃ k : ℕ, k ≤ 8 ∧
      (feedTrace (audio_doa_tracker_enable s0 true) inputs).1.buffer i = 20 * k + 10) ∧
    quantizeAngle 180 = 170 :=
  ⟨(feedTrace_quantized_and_range (audio_doa_tracker_enable s0 true) inputs
      (by
        intro j hj
        simp [audio_doa_tracker_enable, resetTrackerState] at hj)).1 i h,
    by decide⟩

/-- Witness for C7: after one feed of 90 the single valid entry is 90. -/
theorem tracker_buffer_quantized_witness :
    (feedTrace (audio_doa_tracker_enable (enabledTracker 1000 15) true)
      [(90, 0)]).1.validMask 0 = true ∧
    ((∃ k : ℕ, k ≤ 8 ∧
      (feedTrace (audio_doa_tracker_enable (enabledTracker 1000 15) true)
        [(90, 0)]).1.buffer 0 = 20 * k + 10) ∧
      quantizeAngle 180 = 170) :=
  ⟨by decide, tracker_buffer_quantized (enabledTracker 1000 15) [(90, 0)] 0 (by decide)⟩

end AudioDoa
